import Mathlib

/-!
Verification of the lee-tech/authentication service (Go).

This file is a shallow embedding of the parts of the repository that the
claims concern: the JWT issuance/validation pipeline, the login lockout
state machine, the tenant-membership operations, and the bootstrap flow.
Go machine integers (uint64 ids, int counters) are modelled as Nat / Int
(no arithmetic in the source can overflow on the reachable values), Go
time.Time as Int (Unix seconds), and the GORM-backed store as explicit
lists of rows inside an AuthState record that every state-changing
operation threads.

External collaborators (bcrypt, golang-jwt/v5, core utils) are modelled
symbolically, faithful to the behaviour the source relies on:
- bcrypt is an idealised deterministic collision-free hash;
- a JWT is a record carrying the signing algorithm, the claim set as it
  is seen AFTER the JSON round trip (Go numbers become JSON numbers and
  come back as float64, never as string), and a symbolic MAC consisting
  of the signing key and the covered payload;
- golang-jwt v5's jwt.Parse verifies the algorithm via the keyfunc, the
  signature, and the registered exp/nbf claims (iat is not validated by
  default in v5).
-/

namespace Auth

/-! ### JSON values as decoded by encoding/json into MapClaims

After SignedString serialises jwt.MapClaims to JSON and jwt.Parse decodes
it back into map[string]interface{}, a Go uint64/int64 value has become a
JSON number (float64 on the Go side); a Go type assertion .(string) on it
fails. JPrim/JVal model exactly the value shapes this service puts into
its claim sets. -/

/-- A primitive JSON value inside a claim object. -/
inductive JPrim where
  | str (s : String)
  | num (n : Int)
  | bool (b : Bool)
deriving DecidableEq, Repr

/-- A JSON value at the top level of the claim map: a primitive, an array
of strings (aud, roles), or an array of objects with primitive fields
(organizations, departments). -/
inductive JVal where
  | prim (p : JPrim)
  | arrStr (xs : List String)
  | arrObj (xs : List (List (String × JPrim)))
deriving DecidableEq, Repr

/-- Go type assertion v.(string) on a decoded claim value. -/
def JVal.asStr : JVal → Option String
  | .prim (.str s) => some s
  | _ => none

/-- Numeric view of a decoded claim value (Go float64 claims). -/
def JVal.asNum : JVal → Option Int
  | .prim (.num n) => some n
  | _ => none

/-- The decoded claim map (jwt.MapClaims after the JSON round trip).
Keys are unique in every claim set this service builds. -/
abbrev Claims : Type := List (String × JVal)

/-- Map lookup claims[k] on the decoded claim map. -/
def claimLookup (claims : Claims) (k : String) : Option JVal :=
  (claims.find? (fun kv => kv.1 = k)).map (·.2)

/-- The signing algorithms relevant here: the HMAC family that the
keyfunc accepts, and a representative non-HMAC algorithm it rejects. -/
inductive JwtAlg where
  | hs256
  | hs384
  | hs512
  | rs256
deriving DecidableEq, Repr

/-- Whether token.Method is a *jwt.SigningMethodHMAC. -/
def JwtAlg.isHMAC : JwtAlg → Bool
  | .rs256 => false
  | _ => true

/-- A serialised JWT: algorithm header, claim payload, and a symbolic MAC
recording the key and the payload the signature covers. Altering the
payload of an existing token leaves macPayload at the originally signed
claims, so the signature check fails; signing with a different key makes
macKey differ from the verifier's secret. -/
structure SignedToken where
  alg : JwtAlg
  claims : Claims
  macKey : String
  macPayload : Claims
deriving DecidableEq, Repr

/-- token.SignedString(key): an honestly signed token. -/
def signToken (alg : JwtAlg) (key : String) (claims : Claims) : SignedToken :=
  { alg := alg, claims := claims, macKey := key, macPayload := claims }

/-- jwt.Parse with the service's keyfunc (authentication_service.go:344-353,
514-523): reject non-HMAC methods, verify the signature with the shared
secret, and validate the registered exp/nbf claims (golang-jwt v5 default
validation; iat is not checked by default). Returns the decoded claim map
of a valid token. -/
def jwtParse (secret : String) (now : Int) (t : SignedToken) : Option Claims :=
  if ¬ t.alg.isHMAC then none
  else if ¬ (t.macKey = secret ∧ t.macPayload = t.claims) then none
  else
    let expOk := match claimLookup t.claims "exp" with
      | none => true
      | some v => match v.asNum with
        | some e => decide (now < e)
        | none => false
    let nbfOk := match claimLookup t.claims "nbf" with
      | none => true
      | some v => match v.asNum with
        | some n => decide (n ≤ now)
        | none => false
    if expOk && nbfOk then some t.claims else none

/-! ### bcrypt and core utils, modelled symbolically -/

/-- strings.TrimSpace: drop leading and trailing whitespace. Implemented
over the character list so that it evaluates on concrete strings. -/
def trimSpace (s : String) : String :=
  ⟨((s.data.dropWhile Char.isWhitespace).reverse.dropWhile Char.isWhitespace).reverse⟩

/-- bcrypt.GenerateFromPassword, idealised: a deterministic, injective
hash (the real salt only makes repeated hashes differ; CompareHashAndPassword
still verifies any of them against the password). -/
def bcryptHash (password : String) : String :=
  "$2b$" ++ password

/-- bcrypt.CompareHashAndPassword succeeds (returns nil error). -/
def bcryptCheck (hash password : String) : Bool :=
  hash = bcryptHash password

/-- core/utils.ParseUint64: parse a decimal string into a uint64
(strconv.ParseUint base 10); fails on anything that is not a plain
digit string. -/
def parseUint64 (s : String) : Option Nat :=
  s.toNat?

/-! ### Data model (internal/models) -/

/-- models.User (internal/models/user.go:11-50). Timestamps are Unix
seconds; fields not touched by any embedded operation (password-reset and
verification tokens, created/updated/deleted timestamps) are omitted. -/
structure User where
  ID : Nat
  Email : String
  Username : String
  Password : String
  FirstName : String
  LastName : String
  IsActive : Bool
  IsVerified : Bool
  IsSuperAdmin : Bool
  PrimaryOrganizationID : Option Nat
  PrimaryDepartmentID : Option Nat
  LastLogin : Option Int
  LoginAttempts : Int
  LockedUntil : Option Int
  MFAEnabled : Bool
deriving DecidableEq, Repr

/-- models.Organization (internal/models/organization.go:11-28), without
the GORM timestamp/association fields no embedded operation reads. -/
structure Organization where
  ID : Nat
  Name : String
  Description : String
  Domain : String
  IsActive : Bool
  ParentID : Option Nat
deriving DecidableEq, Repr

/-- models.Department (internal/models/organization.go:31-49), reduced to
the fields the embedded operations read. -/
structure Department where
  ID : Nat
  OrganizationID : Nat
  Name : String
  Kind : String
  IsActive : Bool
deriving DecidableEq, Repr

/-- A membership row. models.UserOrganization and models.UserDepartment
(src/unnamed/part_005) have the same shape up to the name of the unit
column (OrganizationID resp. DepartmentID, here UnitID) and the role type
(OrganizationRole is a string newtype); one structure embeds both tables. -/
structure Membership where
  UserID : Nat
  UnitID : Nat
  Role : String
  IsPrimary : Bool
deriving DecidableEq, Repr

/-- models.OrganizationRoleSystemAdmin (src/unnamed/part_006:9). -/
def systemAdminRole : String := "SYSTEM_ADMIN"

/-- The backing store: one list of rows per table, plus the autoincrement
counters the Create paths consume. -/
structure AuthState where
  users : List User
  orgs : List Organization
  depts : List Department
  userOrgs : List Membership
  userDepts : List Membership
  nextUserID : Nat
  nextOrgID : Nat
deriving DecidableEq, Repr

/-- A freshly migrated, empty store. -/
def emptyState : AuthState :=
  { users := [], orgs := [], depts := [], userOrgs := [], userDepts := []
    nextUserID := 1, nextOrgID := 1 }

/-! ### UserRepository (src/unnamed/part_003:14-166) -/

/-- UserRepository.GetByID. -/
def GetByID (st : AuthState) (id : Nat) : Option User :=
  st.users.find? (fun u => u.ID = id)

/-- UserRepository.GetByEmail. -/
def GetByEmail (st : AuthState) (email : String) : Option User :=
  st.users.find? (fun u => u.Email = email)

/-- UserRepository.GetByEmailOrUsername (part_003:77-87). -/
def GetByEmailOrUsername (st : AuthState) (identifier : String) : Option User :=
  st.users.find? (fun u => u.Email = identifier || u.Username = identifier)

/-- Apply g to every user row whose id matches (the UPDATE ... WHERE id = ?
shape shared by the counter/lock updates below). -/
def mapUser (st : AuthState) (uid : Nat) (g : User → User) : AuthState :=
  { st with users := st.users.map (fun u => if u.ID = uid then g u else u) }

/-- UserRepository.Update (gorm Save by primary key). -/
def UpdateUser (st : AuthState) (user : User) : AuthState :=
  mapUser st user.ID (fun _ => user)

/-- UserRepository.UpdateLastLogin (part_003:95-103): set last_login to
now and reset login_attempts to 0. It does NOT touch locked_until. -/
def UpdateLastLogin (st : AuthState) (uid : Nat) (now : Int) : AuthState :=
  mapUser st uid (fun u => { u with LastLogin := some now, LoginAttempts := 0 })

/-- UserRepository.IncrementLoginAttempts (part_003:106-111):
login_attempts := login_attempts + 1 in the store. -/
def IncrementLoginAttempts (st : AuthState) (uid : Nat) : AuthState :=
  mapUser st uid (fun u => { u with LoginAttempts := u.LoginAttempts + 1 })

/-- UserRepository.LockAccount (part_003:114-119). -/
def LockAccount (st : AuthState) (uid : Nat) (until_ : Int) : AuthState :=
  mapUser st uid (fun u => { u with LockedUntil := some until_ })

/-- UserRepository.Create: insert with the autoincrement id already
assigned by the caller-side model below. -/
def CreateUser (st : AuthState) (user : User) : AuthState :=
  { st with users := st.users ++ [user], nextUserID := st.nextUserID + 1 }

/-! ### OrganizationRepository (src/unnamed/part_003:190-455) -/

/-- OrganizationRepository.GetOrganizationByID: nil (none) when the row is
absent rather than an error. -/
def GetOrganizationByID (st : AuthState) (id : Nat) : Option Organization :=
  st.orgs.find? (fun o => o.ID = id)

/-- OrganizationRepository.GetDepartmentByID. -/
def GetDepartmentByID (st : AuthState) (id : Nat) : Option Department :=
  st.depts.find? (fun d => d.ID = id)

/-- OrganizationRepository.ListUserOrganizations (part_003:329-337). The
source orders by is_primary DESC, updated_at DESC; the order only affects
the order of token claim arrays, and the (user_id, organization_id)
primary key makes the per-organization lookup below order-independent. -/
def ListUserOrganizations (st : AuthState) (uid : Nat) : List Membership :=
  st.userOrgs.filter (fun m => m.UserID = uid)

/-- OrganizationRepository.ListUserDepartments (part_003:340-348). -/
def ListUserDepartments (st : AuthState) (uid : Nat) : List Membership :=
  st.userDepts.filter (fun m => m.UserID = uid)

/-- The ON CONFLICT (user_id, unit_id) DO UPDATE SET role, is_primary
upsert shared by UpsertUserOrganization (part_003:351-363) and
UpsertUserDepartment (part_003:381-393). -/
def upsertMembership (rows : List Membership) (uid unitId : Nat)
    (role : String) (isPrimary : Bool) : List Membership :=
  if rows.any (fun m => m.UserID = uid && m.UnitID = unitId) then
    rows.map (fun m =>
      if m.UserID = uid && m.UnitID = unitId then
        { m with Role := role, IsPrimary := isPrimary }
      else m)
  else
    rows ++ [{ UserID := uid, UnitID := unitId, Role := role, IsPrimary := isPrimary }]

/-- UPDATE user_x SET is_primary = false WHERE user_id = ?, the body of
ClearPrimaryOrganization (part_003:411-415) and ClearPrimaryDepartment
(part_003:418-422). -/
def clearPrimary (rows : List Membership) (uid : Nat) : List Membership :=
  rows.map (fun m => if m.UserID = uid then { m with IsPrimary := false } else m)

/-- OrganizationRepository.UpsertUserOrganization. -/
def UpsertUserOrganization (st : AuthState) (uid orgId : Nat)
    (role : String) (isPrimary : Bool) : AuthState :=
  { st with userOrgs := upsertMembership st.userOrgs uid orgId role isPrimary }

/-- OrganizationRepository.UpsertUserDepartment. -/
def UpsertUserDepartment (st : AuthState) (uid deptId : Nat)
    (role : String) (isPrimary : Bool) : AuthState :=
  { st with userDepts := upsertMembership st.userDepts uid deptId role isPrimary }

/-- OrganizationRepository.ClearPrimaryOrganization. -/
def ClearPrimaryOrganization (st : AuthState) (uid : Nat) : AuthState :=
  { st with userOrgs := clearPrimary st.userOrgs uid }

/-- OrganizationRepository.ClearPrimaryDepartment. -/
def ClearPrimaryDepartment (st : AuthState) (uid : Nat) : AuthState :=
  { st with userDepts := clearPrimary st.userDepts uid }

/-- OrganizationRepository.SetUserPrimaryOrganization (part_003:425-429). -/
def SetUserPrimaryOrganization (st : AuthState) (uid orgId : Nat) : AuthState :=
  mapUser st uid (fun u => { u with PrimaryOrganizationID := some orgId })

/-- OrganizationRepository.SetUserPrimaryDepartment (part_003:432-436). -/
def SetUserPrimaryDepartment (st : AuthState) (uid deptId : Nat) : AuthState :=
  mapUser st uid (fun u => { u with PrimaryDepartmentID := some deptId })

/-- OrganizationRepository.GetUserOrganization (part_003:366-378). -/
def GetUserOrganization (st : AuthState) (uid orgId : Nat) : Option Membership :=
  st.userOrgs.find? (fun m => m.UserID = uid && m.UnitID = orgId)

/-- OrganizationRepository.GetUserDepartment (part_003:396-408). -/
def GetUserDepartment (st : AuthState) (uid deptId : Nat) : Option Membership :=
  st.userDepts.find? (fun m => m.UserID = uid && m.UnitID = deptId)

/-- updateOrganizationDefaults (part_003:243-262): reactivate, and heal
description/domain when the caller supplied a non-empty differing value.
The description condition compares the stored value against the
UNtrimmed input but stores the trimmed one, exactly as the source does.
Both call sites pass the already-trimmed cleanDomain, so the source's
inner re-trim of the domain is the identity and is not repeated here.
The source then refetches the row by id; the refetched row is the
updated one. -/
def updateOrganizationDefaults (st : AuthState) (org : Organization)
    (description cleanDomain : String) (isActive : Bool) :
    AuthState × Organization :=
  let org' : Organization :=
    { org with
      IsActive := isActive
      Description :=
        if trimSpace description ≠ "" ∧ org.Description ≠ description then
          trimSpace description
        else org.Description
      Domain :=
        if cleanDomain ≠ "" ∧ org.Domain ≠ cleanDomain then cleanDomain
        else org.Domain }
  ({ st with orgs := st.orgs.map (fun o => if o.ID = org.ID then org' else o) }, org')

/-- OrganizationRepository.EnsureOrganization (part_003:206-241):
find-or-create keyed first by domain (when non-empty) then by name, with
opportunistic field healing on the found row. -/
def EnsureOrganization (st : AuthState) (name description domain : String) :
    AuthState × Except String Organization :=
  if trimSpace name = "" then
    (st, .error "organization name is required")
  else
    let cleanDomain := trimSpace domain
    let cleanName := trimSpace name
    match (if cleanDomain = "" then none
           else st.orgs.find? (fun o => o.Domain = cleanDomain)) with
    | some org =>
      let (st', org') := updateOrganizationDefaults st org description cleanDomain true
      (st', .ok org')
    | none =>
      match st.orgs.find? (fun o => o.Name = cleanName) with
      | some org =>
        let (st', org') := updateOrganizationDefaults st org description cleanDomain true
        (st', .ok org')
      | none =>
        let org : Organization :=
          { ID := st.nextOrgID, Name := cleanName
            Description := trimSpace description, Domain := cleanDomain
            IsActive := true, ParentID := none }
        ({ st with orgs := st.orgs ++ [org], nextOrgID := st.nextOrgID + 1 }, .ok org)

/-! ### Requests, responses, configuration (internal/models, config) -/

/-- models.LoginRequest (src/unnamed/part_004:39-45). department_id and
role_id carry the uint64 zero value when the JSON field is omitted. -/
structure LoginRequest where
  Username : String
  Password : String
  OrganizationID : Nat
  DepartmentID : Nat
  RoleID : Nat
deriving DecidableEq, Repr

/-- models.OrganizationMembershipInfo / DepartmentMembershipInfo
(part_004:8-21). The unit name is present only when the membership's
preloaded unit row existed. -/
structure MembershipInfo where
  UnitID : Nat
  UnitName : Option String
  Role : String
  IsPrimary : Bool
deriving DecidableEq, Repr

/-- models.UserInfo (part_004:24-36). -/
structure UserInfo where
  ID : Nat
  Email : String
  Username : String
  FirstName : String
  LastName : String
  PrimaryOrganizationID : Option Nat
  PrimaryDepartmentID : Option Nat
  IsSuperAdmin : Bool
  MFAEnabled : Bool
  Organizations : List MembershipInfo
  Departments : List MembershipInfo
deriving DecidableEq, Repr

/-- models.LoginResponse (part_004:48-56). The tokens are carried as the
symbolic SignedToken values the codec produced. -/
structure LoginResponse where
  AccessToken : SignedToken
  RefreshToken : SignedToken
  ExpiresIn : Int
  TokenType : String
  User : UserInfo
  LoggedOrganization : Option Organization
  LoggedDepartment : Option Department
deriving DecidableEq, Repr

/-- config.AuthConfig (config/config.go), flattened together with the
embedded core Config fields the service reads (ServiceName, JWTSecret).
Durations are in seconds. -/
structure AuthConfig where
  ServiceName : String
  JWTSecret : String
  TokenExpiration : Int
  RefreshExpiration : Int
  PasswordMinLength : Int
  MaxLoginAttempts : Int
  LockoutDuration : Int
deriving DecidableEq, Repr

/-- The service error taxonomy. Each constructor names one distinct Go
error value or fmt.Errorf site in internal/service. -/
inductive AuthErr where
  /-- service.ErrInvalidCredentials. -/
  | invalidCredentials
  /-- service.ErrAccountLocked. -/
  | accountLocked
  /-- service.ErrAccountInactive. -/
  | accountInactive
  /-- service.ErrInvalidToken. -/
  | invalidToken
  /-- authentication_service.go:239 "user does not have the required role
  in the organization". -/
  | roleNotAllowed
  /-- authentication_service.go:265 "organization not found or user not a
  member". -/
  | orgNotFoundOrNotMember
  /-- The strconv error that ValidateToken propagates from
  utils.ParseUint64 (authentication_service.go:541-542). -/
  | parseFailure
  /-- service.ErrUserNotFound (organization service). -/
  | userNotFound
  /-- service.ErrOrganizationNotFound. -/
  | organizationNotFound
  /-- service.ErrDepartmentNotFound. -/
  | departmentNotFound
  /-- A "x is required" input-validation fmt.Errorf from the organization
  service or bootstrap. -/
  | inputRequired (what : String)
deriving DecidableEq, Repr

/-! ### AuthenticationService helpers -/

/-- The loop of uniqueStrings; seen collects the kept values in reverse
order. -/
def uniqueStringsGo : List String → List String → List String
  | [], seen => seen.reverse
  | v :: rest, seen =>
    let trimmed := trimSpace v
    if trimmed = "" ∨ trimmed ∈ seen then uniqueStringsGo rest seen
    else uniqueStringsGo rest (trimmed :: seen)

/-- uniqueStrings (authentication_service.go:610-628): trim, drop empties,
deduplicate keeping first occurrence. -/
def uniqueStrings (values : List String) : List String :=
  uniqueStringsGo values []

/-- collectMemberships (authentication_service.go:545-561). -/
def collectMemberships (st : AuthState) (uid : Nat) :
    List Membership × List Membership :=
  (ListUserOrganizations st uid, ListUserDepartments st uid)

/-- One entry of the organizations access-token claim
(authentication_service.go:443-459): id and is_primary always, name when
the preloaded organization row exists, role when non-empty. -/
def orgMembershipClaim (st : AuthState) (m : Membership) : List (String × JPrim) :=
  [("id", .num m.UnitID), ("is_primary", .bool m.IsPrimary)]
    ++ (match GetOrganizationByID st m.UnitID with
        | some org => [("name", JPrim.str org.Name)]
        | none => [])
    ++ (if m.Role ≠ "" then [("role", JPrim.str m.Role)] else [])

/-- One entry of the departments access-token claim
(authentication_service.go:468-482). -/
def deptMembershipClaim (st : AuthState) (m : Membership) : List (String × JPrim) :=
  [("id", .num m.UnitID), ("is_primary", .bool m.IsPrimary)]
    ++ (match GetDepartmentByID st m.UnitID with
        | some dept => [("name", JPrim.str dept.Name)]
        | none => [])
    ++ (if m.Role ≠ "" then [("role", JPrim.str m.Role)] else [])

/-- generateAccessToken (authentication_service.go:412-489). Note that
sub and user_id are written as the uint64 user.ID, which serialises to a
JSON number (never a string); jti is the freshly generated uuid, passed
in as a parameter. Signed HS256 with the shared secret. -/
def generateAccessToken (cfg : AuthConfig) (st : AuthState) (now : Int)
    (jti : String) (user : User) (orgMs deptMs : List Membership) : SignedToken :=
  let base : Claims :=
    [("iss", .prim (.str cfg.ServiceName)),
     ("sub", .prim (.num user.ID)),
     ("aud", .arrStr [cfg.ServiceName]),
     ("exp", .prim (.num (now + cfg.TokenExpiration))),
     ("iat", .prim (.num now)),
     ("nbf", .prim (.num now)),
     ("jti", .prim (.str jti)),
     ("type", .prim (.str "access")),
     ("user_id", .prim (.num user.ID)),
     ("email", .prim (.str user.Email)),
     ("username", .prim (.str user.Username))]
  let withOrgID := base ++
    (match user.PrimaryOrganizationID with
     | some o => [("org_id", JVal.prim (.num o))]
     | none => [])
  let withAdmin := withOrgID ++
    (if user.IsSuperAdmin then [("is_super_admin", JVal.prim (.bool true))] else [])
  let withOrgs := withAdmin ++
    (if orgMs.length > 0 then
      let roles := (orgMs.filter (fun m => m.Role ≠ "")).map (·.Role)
      [("organizations", JVal.arrObj (orgMs.map (orgMembershipClaim st)))]
        ++ (if roles.length > 0 then [("roles", JVal.arrStr (uniqueStrings roles))] else [])
    else [])
  let withDepts := withOrgs ++
    (if deptMs.length > 0 then
      [("departments", JVal.arrObj (deptMs.map (deptMembershipClaim st)))]
    else [])
  signToken .hs256 cfg.JWTSecret withDepts

/-- generateRefreshToken (authentication_service.go:492-510). user_id is
again the uint64 user.ID, a JSON number. -/
def generateRefreshToken (cfg : AuthConfig) (now : Int) (jti : String)
    (user : User) : SignedToken :=
  signToken .hs256 cfg.JWTSecret
    [("iss", .prim (.str cfg.ServiceName)),
     ("sub", .prim (.num user.ID)),
     ("aud", .arrStr [cfg.ServiceName]),
     ("exp", .prim (.num (now + cfg.RefreshExpiration))),
     ("iat", .prim (.num now)),
     ("nbf", .prim (.num now)),
     ("jti", .prim (.str jti)),
     ("type", .prim (.str "refresh")),
     ("user_id", .prim (.num user.ID))]

/-- composeUserInfo (authentication_service.go:563-608). -/
def composeUserInfo (st : AuthState) (user : User)
    (orgMs deptMs : List Membership) : UserInfo :=
  { ID := user.ID, Email := user.Email, Username := user.Username
    FirstName := user.FirstName, LastName := user.LastName
    PrimaryOrganizationID := user.PrimaryOrganizationID
    PrimaryDepartmentID := user.PrimaryDepartmentID
    IsSuperAdmin := user.IsSuperAdmin, MFAEnabled := user.MFAEnabled
    Organizations := orgMs.map (fun m =>
      { UnitID := m.UnitID
        UnitName := (GetOrganizationByID st m.UnitID).map (·.Name)
        Role := m.Role, IsPrimary := m.IsPrimary })
    Departments := deptMs.map (fun m =>
      { UnitID := m.UnitID
        UnitName := (GetDepartmentByID st m.UnitID).map (·.Name)
        Role := m.Role, IsPrimary := m.IsPrimary }) }

/-! ### AuthenticationService operations -/

/-- ValidateToken (authentication_service.go:513-543): parse and verify
the token, require the type claim to be the string "access", then read
claims\x7b"user_id"\x7d with a .(string) type assertion and parse it with
utils.ParseUint64 (whose error, unlike the earlier checks, is returned
as-is). -/
def ValidateToken (cfg : AuthConfig) (now : Int) (t : SignedToken) :
    Except AuthErr Nat :=
  match jwtParse cfg.JWTSecret now t with
  | none => .error .invalidToken
  | some claims =>
    match (claimLookup claims "type").bind JVal.asStr with
    | none => .error .invalidToken
    | some ty =>
      if ty ≠ "access" then .error .invalidToken
      else
        match (claimLookup claims "user_id").bind JVal.asStr with
        | none => .error .invalidToken
        | some s =>
          match parseUint64 s with
          | none => .error .parseFailure
          | some uid => .ok uid

/-- Whether the stored lock is active: user.LockedUntil != nil and
LockedUntil.After(now) (authentication_service.go:205). -/
def lockIsActive (user : User) (now : Int) : Prop :=
  match user.LockedUntil with
  | some t => now < t
  | none => False

instance (user : User) (now : Int) : Decidable (lockIsActive user now) := by
  unfold lockIsActive
  cases user.LockedUntil <;> infer_instance

/-- Login (authentication_service.go:193-294). now is the current Unix
time; jtiA and jtiR are the uuids generated for the two tokens. Returns
the updated store together with the result. -/
def Login (cfg : AuthConfig) (st : AuthState) (now : Int) (jtiA jtiR : String)
    (req : LoginRequest) : AuthState × Except AuthErr LoginResponse :=
  match GetByEmailOrUsername st req.Username with
  | none => (st, .error .invalidCredentials)
  | some user =>
    if lockIsActive user now then (st, .error .accountLocked)
    else if ¬ user.IsActive then (st, .error .accountInactive)
    else if ¬ bcryptCheck user.Password req.Password then
      -- failed password: increment attempts, then lock when the count
      -- after this failure reaches the threshold (lines 215-226)
      let st1 := IncrementLoginAttempts st user.ID
      let st2 :=
        if user.LoginAttempts + 1 ≥ cfg.MaxLoginAttempts then
          LockAccount st1 user.ID (now + cfg.LockoutDuration)
        else st1
      (st2, .error .invalidCredentials)
    else
      let (orgMs, deptMs) := collectMemberships st user.ID
      -- the loop over orgMemberships (lines 235-250): the composite
      -- primary key makes the first match the only match
      match orgMs.find? (fun m => m.UnitID = req.OrganizationID) with
      | none => (st, .error .orgNotFoundOrNotMember)
      | some m =>
        if m.Role ≠ "" ∧ m.Role ≠ systemAdminRole then
          (st, .error .roleNotAllowed)
        else
          let loggedOrganization := GetOrganizationByID st m.UnitID
          let loggedDepartment :=
            (deptMs.find? (fun d => d.UnitID = req.DepartmentID)).bind
              (fun d => GetDepartmentByID st d.UnitID)
          match loggedOrganization with
          | none => (st, .error .orgNotFoundOrNotMember)
          | some org =>
            let access := generateAccessToken cfg st now jtiA user orgMs deptMs
            let refresh := generateRefreshToken cfg now jtiR user
            let st' := UpdateLastLogin st user.ID now
            (st', .ok
              { AccessToken := access, RefreshToken := refresh
                ExpiresIn := cfg.TokenExpiration, TokenType := "Bearer"
                User := composeUserInfo st user orgMs deptMs
                LoggedOrganization := some org
                LoggedDepartment := loggedDepartment })

/-- RefreshToken (authentication_service.go:342-409): parse, require type
"refresh", read user_id with a .(string) assertion, load the account and
require it active, then issue a fresh pair. Every failure collapses into
ErrInvalidToken. The store is not modified. -/
def RefreshToken (cfg : AuthConfig) (st : AuthState) (now : Int)
    (jtiA jtiR : String) (t : SignedToken) : Except AuthErr LoginResponse :=
  match jwtParse cfg.JWTSecret now t with
  | none => .error .invalidToken
  | some claims =>
    match (claimLookup claims "type").bind JVal.asStr with
    | none => .error .invalidToken
    | some ty =>
      if ty ≠ "refresh" then .error .invalidToken
      else
        match (claimLookup claims "user_id").bind JVal.asStr with
        | none => .error .invalidToken
        | some s =>
          match parseUint64 s with
          | none => .error .invalidToken
          | some uid =>
            match GetByID st uid with
            | none => .error .invalidToken
            | some user =>
              if ¬ user.IsActive then .error .invalidToken
              else
                let (orgMs, deptMs) := collectMemberships st user.ID
                .ok
                  { AccessToken := generateAccessToken cfg st now jtiA user orgMs deptMs
                    RefreshToken := generateRefreshToken cfg now jtiR user
                    ExpiresIn := cfg.TokenExpiration, TokenType := "Bearer"
                    User := composeUserInfo st user orgMs deptMs
                    LoggedOrganization := none, LoggedDepartment := none }

/-! ### Bootstrap (authentication_service.go:73-190) -/

/-- service.BootstrapAdminInput (authentication_service.go:36-46). -/
structure BootstrapAdminInput where
  OrganizationName : String
  OrganizationDescription : String
  OrganizationDomain : String
  AdminEmail : String
  AdminUsername : String
  AdminPassword : String
  AdminFirstName : String
  AdminLastName : String
  ForcePasswordReset : Bool
deriving DecidableEq, Repr

/-- The tail of BootstrapAdmin shared by both branches (lines 182-189):
unconditionally upsert the primary administrator membership — without
clearing other primaries first — and republish the denormalized primary
organization field. -/
def bootstrapFinish (st : AuthState) (org : Organization) (user : User) :
    AuthState × Except AuthErr (Organization × User) :=
  let st1 := UpsertUserOrganization st user.ID org.ID systemAdminRole true
  let st2 := SetUserPrimaryOrganization st1 user.ID org.ID
  (st2, .ok (org, user))

/-- BootstrapAdmin (authentication_service.go:73-190): ensure the root
organization, then create the admin account (hashed password, all flags
set) or heal the existing one, rehashing the password only when
ForcePasswordReset is set or the supplied password no longer verifies. -/
def BootstrapAdmin (cfg : AuthConfig) (st : AuthState)
    (input : BootstrapAdminInput) : AuthState × Except AuthErr (Organization × User) :=
  match EnsureOrganization st input.OrganizationName
      input.OrganizationDescription input.OrganizationDomain with
  | (st', .error e) => (st', .error (.inputRequired e))
  | (st1, .ok org) =>
    let email := trimSpace input.AdminEmail
    if email = "" then (st1, .error (.inputRequired "bootstrap admin email"))
    else
      let username := if trimSpace input.AdminUsername = "" then email
                      else trimSpace input.AdminUsername
      let minPasswordLength :=
        if cfg.PasswordMinLength ≤ 0 then 8 else cfg.PasswordMinLength
      if (input.AdminPassword.length : Int) < minPasswordLength then
        (st1, .error (.inputRequired "bootstrap admin password length"))
      else
        match GetByEmail st1 email with
        | none =>
          let user : User :=
            { ID := st1.nextUserID, Email := email, Username := username
              Password := bcryptHash input.AdminPassword
              FirstName := if trimSpace input.AdminFirstName = "" then "System"
                           else trimSpace input.AdminFirstName
              LastName := if trimSpace input.AdminLastName = "" then "Administrator"
                          else trimSpace input.AdminLastName
              IsActive := true, IsVerified := true, IsSuperAdmin := true
              PrimaryOrganizationID := some org.ID, PrimaryDepartmentID := none
              LastLogin := none, LoginAttempts := 0, LockedUntil := none
              MFAEnabled := false }
          bootstrapFinish (CreateUser st1 user) org user
        | some user0 =>
          let needPasswordUpdate :=
            input.ForcePasswordReset
              || ¬ bcryptCheck user0.Password input.AdminPassword
          let user : User :=
            { user0 with
              Username := username
              FirstName := if trimSpace input.AdminFirstName = "" then user0.FirstName
                           else trimSpace input.AdminFirstName
              LastName := if trimSpace input.AdminLastName = "" then user0.LastName
                          else trimSpace input.AdminLastName
              IsActive := true, IsVerified := true, IsSuperAdmin := true
              PrimaryOrganizationID := some org.ID
              Password := if needPasswordUpdate then bcryptHash input.AdminPassword
                          else user0.Password }
          bootstrapFinish (UpdateUser st1 user) org user

/-! ### OrganizationService membership assignment (src/unnamed/part_003:618-717) -/

/-- models.AssignUserOrganizationInput (part_004:80-85). -/
structure AssignUserOrganizationInput where
  UserID : Nat
  OrganizationID : Nat
  Role : String
  IsPrimary : Bool
deriving DecidableEq, Repr

/-- models.AssignUserDepartmentInput (part_004:88-93); the ids are
pointers in the source. -/
structure AssignUserDepartmentInput where
  UserID : Option Nat
  DepartmentID : Option Nat
  Role : String
  IsPrimary : Bool
deriving DecidableEq, Repr

/-- AssignUserToOrganization (part_003:618-666): validate both ends, then
clear-then-set when is_primary is requested, upsert the membership, and
republish the denormalized primary reference. -/
def AssignUserToOrganization (st : AuthState)
    (input : AssignUserOrganizationInput) :
    AuthState × Except AuthErr (Option Membership) :=
  if input.UserID = 0 then (st, .error (.inputRequired "user_id"))
  else if input.OrganizationID = 0 then (st, .error (.inputRequired "organization_id"))
  else
    match GetByID st input.UserID with
    | none => (st, .error .userNotFound)
    | some _ =>
      match GetOrganizationByID st input.OrganizationID with
      | none => (st, .error .organizationNotFound)
      | some _ =>
        let st1 := if input.IsPrimary then ClearPrimaryOrganization st input.UserID else st
        let st2 := UpsertUserOrganization st1 input.UserID input.OrganizationID
          input.Role input.IsPrimary
        let st3 := if input.IsPrimary then
            SetUserPrimaryOrganization st2 input.UserID input.OrganizationID
          else st2
        (st3, .ok (GetUserOrganization st3 input.UserID input.OrganizationID))

/-- AssignUserToDepartment (part_003:669-717). -/
def AssignUserToDepartment (st : AuthState)
    (input : AssignUserDepartmentInput) :
    AuthState × Except AuthErr (Option Membership) :=
  match input.UserID with
  | none => (st, .error (.inputRequired "user_id"))
  | some uid =>
    match input.DepartmentID with
    | none => (st, .error (.inputRequired "department_id"))
    | some deptId =>
      match GetByID st uid with
      | none => (st, .error .userNotFound)
      | some _ =>
        match GetDepartmentByID st deptId with
        | none => (st, .error .departmentNotFound)
        | some _ =>
          let st1 := if input.IsPrimary then ClearPrimaryDepartment st uid else st
          let st2 := UpsertUserDepartment st1 uid deptId input.Role input.IsPrimary
          let st3 := if input.IsPrimary then SetUserPrimaryDepartment st2 uid deptId
                     else st2
          (st3, .ok (GetUserDepartment st3 uid deptId))

/-! ### HTTP boundary: the login handler's validation stage
(api/handlers/authentication_handler.go:133-168) -/

/-- The manual validation the Login handler performs before it calls the
service (authentication_handler.go:141-148). Returns the validation error
message written to the response, or none when the request proceeds to
AuthenticationService.Login. -/
def handlerLoginValidate (req : LoginRequest) : Option String :=
  if req.Username = "" ∨ req.Password = "" then
    some "Username and password are required"
  else if req.OrganizationID = 0 ∨ req.RoleID = 0 then
    some "Organization ID and Role ID are required"
  else
    none

/-! ### The primary-membership invariant (spec section 3) -/

/-- How many membership rows of this user carry is_primary = true. -/
def primaryCount (rows : List Membership) (uid : Nat) : Nat :=
  rows.countP (fun m => decide (m.UserID = uid) && m.IsPrimary)

/-- At most one primary membership per user within one membership table. -/
def AtMostOnePrimary (rows : List Membership) : Prop :=
  ∀ uid, primaryCount rows uid ≤ 1

/-- The composite primary keys of a membership table. -/
def membershipKeys (rows : List Membership) : List (Nat × Nat) :=
  rows.map (fun m => (m.UserID, m.UnitID))

/-- The (user_id, unit_id) composite primary key: no duplicate rows. -/
def KeysNodup (rows : List Membership) : Prop :=
  (membershipKeys rows).Nodup

/-- The membership wellformedness the store's schema guarantees: the
composite primary keys are unique, and each table holds at most one
primary row per user. -/
def MembershipInv (st : AuthState) : Prop :=
  AtMostOnePrimary st.userOrgs ∧ AtMostOnePrimary st.userDepts
    ∧ KeysNodup st.userOrgs ∧ KeysNodup st.userDepts

/-! ### Concrete fixtures used by the counterexamples and witnesses -/

/-- A representative configuration (the env defaults of config/config.go). -/
def demoCfg : AuthConfig :=
  { ServiceName := "authentication", JWTSecret := "s3cr3t"
    TokenExpiration := 900, RefreshExpiration := 604800
    PasswordMinLength := 8, MaxLoginAttempts := 5, LockoutDuration := 900 }

/-- A demo account with a bcrypt-hashed password. -/
def demoUser : User :=
  { ID := 7, Email := "alice@example.com", Username := "alice"
    Password := bcryptHash "pw123456", FirstName := "Alice", LastName := "Doe"
    IsActive := true, IsVerified := true, IsSuperAdmin := false
    PrimaryOrganizationID := some 1, PrimaryDepartmentID := none
    LastLogin := none, LoginAttempts := 0, LockedUntil := none
    MFAEnabled := false }

/-- A demo organization. -/
def demoOrg : Organization :=
  { ID := 1, Name := "Root", Description := "", Domain := "root.example"
    IsActive := true, ParentID := none }

/-- A store holding the demo account with an unrestricted membership in
the demo organization. -/
def demoState : AuthState :=
  { users := [demoUser], orgs := [demoOrg], depts := []
    userOrgs := [{ UserID := 7, UnitID := 1, Role := "", IsPrimary := true }]
    userDepts := [], nextUserID := 8, nextOrgID := 2 }

/-- A login request that matches the demo account and organization. -/
def demoReq : LoginRequest :=
  { Username := "alice", Password := "pw123456", OrganizationID := 1
    DepartmentID := 0, RoleID := 3 }

/-- C2 counterexample state: the demo account with an expired lock
(locked_until = 5) and three recorded failed attempts. -/
def c2State : AuthState :=
  { demoState with users := [{ demoUser with LockedUntil := some 5, LoginAttempts := 3 }] }

/-- The bootstrap admin of the C3 counterexample: already existing, and
holding a primary membership in a different organization (id 2). -/
def c3Admin : User :=
  { demoUser with
    ID := 1, Email := "admin@corp.example", Username := "root-admin"
    Password := bcryptHash "ChangeMe123!", PrimaryOrganizationID := some 2 }

/-- The two organizations of the C3 counterexample state. -/
def c3RootOrg : Organization :=
  { ID := 1, Name := "Root", Description := "", Domain := "root.example"
    IsActive := true, ParentID := none }

/-- The organization the C3 admin is currently primary in. -/
def c3OtherOrg : Organization :=
  { ID := 2, Name := "Other", Description := "", Domain := "other.example"
    IsActive := true, ParentID := none }

/-- The C3 counterexample store, satisfying MembershipInv: exactly one
primary organization membership (admin in organization 2). -/
def c3State : AuthState :=
  { users := [c3Admin]
    orgs := [c3RootOrg, c3OtherOrg]
    depts := []
    userOrgs := [{ UserID := 1, UnitID := 2, Role := "", IsPrimary := true }]
    userDepts := [], nextUserID := 2, nextOrgID := 3 }

/-- C3 counterexample input: bootstrap into the existing Root
organization with the existing admin's email and current password. -/
def c3Input : BootstrapAdminInput :=
  { OrganizationName := "Root", OrganizationDescription := ""
    OrganizationDomain := "root.example", AdminEmail := "admin@corp.example"
    AdminUsername := "root-admin", AdminPassword := "ChangeMe123!"
    AdminFirstName := "", AdminLastName := "", ForcePasswordReset := false }

/-! ## Helper lemmas -/

/-- Updating a user row in place commutes with the by-id lookup when the
update preserves the id. -/
theorem getByID_mapUser (st : AuthState) (uid : Nat) (g : User → User)
    (hg : ∀ u, (g u).ID = u.ID) :
    GetByID (mapUser st uid g) uid = (GetByID st uid).map g := by
  unfold GetByID mapUser
  rw [List.find?_map]
  have hpred :
      ((fun u : User => decide (u.ID = uid)) ∘ fun u => if u.ID = uid then g u else u)
        = fun u : User => decide (u.ID = uid) := by
    funext u
    by_cases h : u.ID = uid
    · simp [h, hg]
    · simp [h]
  rw [hpred]
  cases hfind : st.users.find? (fun u => decide (u.ID = uid)) with
  | none => rfl
  | some u₀ =>
    have hid : u₀.ID = uid := by
      have := List.find?_some hfind
      simpa using this
    simp [hid]

/-- A user that is in the store and unique for its id is what the by-id
lookup returns. -/
theorem find_user_by_id (l : List User) (user : User)
    (hmem : user ∈ l)
    (huniq : ∀ u ∈ l, u.ID = user.ID → u = user) :
    l.find? (fun u => u.ID = user.ID) = some user := by
  induction l with
  | nil => cases hmem
  | cons a t ih =>
    by_cases ha : a.ID = user.ID
    · have : a = user := huniq a (List.mem_cons_self a t) ha
      subst this
      simp [List.find?]
    · have hmem' : user ∈ t := by
        rcases List.mem_cons.mp hmem with h | h
        · exact absurd (h ▸ rfl) ha
        · exact h
      simp only [List.find?, ha, decide_False]
      exact ih hmem' (fun u hu => huniq u (List.mem_cons_of_mem a hu))

/-- A user that is in the store and unique for its id is what the by-id
lookup returns. -/
theorem getByID_eq_of_mem (st : AuthState) (user : User)
    (hmem : user ∈ st.users)
    (huniq : ∀ u ∈ st.users, u.ID = user.ID → u = user) :
    GetByID st user.ID = some user :=
  find_user_by_id st.users user hmem huniq

/-! ## C6 — login against an actively locked account -/

/-- C6: for every account whose locked_until is set and in the future,
Login fails immediately with AccountLocked and performs no state change
at all: the returned store is the input store, so login_attempts and
locked_until are untouched (authentication_service.go:204-207). -/
theorem C6_locked_login_rejected_unchanged
    (cfg : AuthConfig) (st : AuthState) (now : Int) (jtiA jtiR : String)
    (req : LoginRequest) (user : User) (t : Int)
    (hfind : GetByEmailOrUsername st req.Username = some user)
    (hlocked : user.LockedUntil = some t)
    (hfut : now < t) :
    Login cfg st now jtiA jtiR req = (st, .error .accountLocked) := by
  have hlock : lockIsActive user now := by
    unfold lockIsActive
    rw [hlocked]
    exact hfut
  unfold Login
  rw [hfind]
  simp [hlock]

/-- C6 witness: the demo account locked until time 100, queried at
time 10. -/
theorem C6_witness :
    Login demoCfg
      { demoState with users := [{ demoUser with LockedUntil := some 100 }] }
      10 "ja" "jr" demoReq
      = ({ demoState with users := [{ demoUser with LockedUntil := some 100 }] },
         .error .accountLocked) :=
  C6_locked_login_rejected_unchanged demoCfg _ 10 "ja" "jr" demoReq
    { demoUser with LockedUntil := some 100 } 100 (by decide) rfl (by decide)

/-! ## C4 — role_id in the login wire contract -/

/-- C4 counterexample: a login request carrying username, password and a
non-zero organization_id but omitting role_id (zero value) IS rejected by
the handler's validation stage (authentication_handler.go:145-148) and
never reaches credential verification — contradicting the claim that
role_id is optional. -/
theorem C4_counterexample_roleid_zero_rejected :
    handlerLoginValidate
      { Username := "root-admin", Password := "ChangeMe123!"
        OrganizationID := 1, DepartmentID := 0, RoleID := 0 }
      = some "Organization ID and Role ID are required" := by
  decide

/-- C4 amended: in the handler's validation, role_id is required, not
optional: with username and password present and organization_id
non-zero, a request with role_id = 0 is rejected as a validation failure,
while any request with role_id non-zero passes validation regardless of
department_id (department_id alone is optional). -/
theorem C4_roleid_required
    (req : LoginRequest)
    (hu : req.Username ≠ "") (hp : req.Password ≠ "")
    (ho : req.OrganizationID ≠ 0) :
    (req.RoleID = 0 →
      handlerLoginValidate req = some "Organization ID and Role ID are required")
    ∧ (req.RoleID ≠ 0 → handlerLoginValidate req = none) := by
  unfold handlerLoginValidate
  constructor
  · intro hr
    rw [if_neg (by tauto), if_pos (by tauto)]
  · intro hr
    rw [if_neg (by tauto), if_neg (by tauto)]

/-- C4 witness: instantiating the amended theorem at two concrete
requests, one omitting role_id and one carrying it. -/
theorem C4_roleid_required_witness :
    (handlerLoginValidate
        { Username := "root-admin", Password := "pw", OrganizationID := 1
          DepartmentID := 0, RoleID := 0 }
        = some "Organization ID and Role ID are required")
    ∧ (handlerLoginValidate
        { Username := "root-admin", Password := "pw", OrganizationID := 1
          DepartmentID := 0, RoleID := 5 }
        = none) :=
  ⟨(C4_roleid_required _ (by decide) (by decide) (by decide)).1 rfl,
   (C4_roleid_required _ (by decide) (by decide) (by decide)).2 (by decide)⟩

/-! ## C7 — token-type discrimination -/

/-- C7: for every well-formed, correctly signed, unexpired token (one
that jwt.Parse accepts) whose decoded type claim is the string ty,
RefreshToken rejects it with ErrInvalidToken whenever ty is not
"refresh" (authentication_service.go:361-363), and ValidateToken rejects
it with ErrInvalidToken whenever ty is not "access" (lines 531-533) —
in particular each rejects the other kind's tokens. -/
theorem C7_token_type_rejection
    (cfg : AuthConfig) (st : AuthState) (now : Int) (jtiA jtiR : String)
    (t : SignedToken) (claims : Claims) (ty : String)
    (hparse : jwtParse cfg.JWTSecret now t = some claims)
    (hty : (claimLookup claims "type").bind JVal.asStr = some ty) :
    (ty ≠ "refresh" → RefreshToken cfg st now jtiA jtiR t = .error .invalidToken)
    ∧ (ty ≠ "access" → ValidateToken cfg now t = .error .invalidToken) := by
  constructor
  · intro hne
    unfold RefreshToken
    rw [hparse]
    simp only [hty]
    rw [if_pos hne]
  · intro hne
    unfold ValidateToken
    rw [hparse]
    simp only [hty]
    rw [if_pos hne]

/-- C7 witness: a freshly issued access token is rejected by
RefreshToken, and a freshly issued refresh token is rejected by
ValidateToken. -/
theorem C7_token_type_rejection_witness :
    (RefreshToken demoCfg demoState 0 "ja" "jr"
        (generateAccessToken demoCfg demoState 0 "j1" demoUser [] [])
      = .error .invalidToken)
    ∧ (ValidateToken demoCfg 0
        (generateRefreshToken demoCfg 0 "j2" demoUser)
      = .error .invalidToken) :=
  ⟨(C7_token_type_rejection demoCfg demoState 0 "ja" "jr"
      (generateAccessToken demoCfg demoState 0 "j1" demoUser [] [])
      (generateAccessToken demoCfg demoState 0 "j1" demoUser [] []).claims "access"
      (by decide) (by decide)).1 (by decide),
   (C7_token_type_rejection demoCfg demoState 0 "ja" "jr"
      (generateRefreshToken demoCfg 0 "j2" demoUser)
      (generateRefreshToken demoCfg 0 "j2" demoUser).claims "refresh"
      (by decide) (by decide)).2 (by decide)⟩

/-! ## C1 — access-token round trip -/

/-- C1 (code bug): for EVERY account and configuration with a positive
access-token lifetime, the token produced by generateAccessToken is
REJECTED by ValidateToken with ErrInvalidToken. generateAccessToken
writes the user_id claim as the uint64 user.ID
(authentication_service.go:425), which serialises to a JSON number and
decodes back as a float64, while ValidateToken reads it with a .(string)
type assertion (line 536) that always fails on a number. The signature,
algorithm, expiry and type checks all pass; the round trip dies at the
user_id read, so the spec's round-trip property does not hold. -/
theorem C1_roundtrip_rejected
    (cfg : AuthConfig) (st : AuthState) (now : Int) (jti : String)
    (user : User) (orgMs deptMs : List Membership)
    (hexp : 0 < cfg.TokenExpiration) :
    ValidateToken cfg now (generateAccessToken cfg st now jti user orgMs deptMs)
      = .error .invalidToken := by
  have hlt : now < now + cfg.TokenExpiration := by omega
  unfold ValidateToken generateAccessToken signToken jwtParse claimLookup
  simp [JwtAlg.isHMAC, JVal.asStr, JVal.asNum, List.find?, hlt, le_refl]

/-- C1 witness: the concrete failing input — a token issued for the demo
account at time 0 with the default 15-minute lifetime is rejected
immediately by ValidateToken. -/
theorem C1_roundtrip_rejected_witness :
    (0 : Int) < demoCfg.TokenExpiration
    ∧ ValidateToken demoCfg 0
        (generateAccessToken demoCfg demoState 0 "jti-1" demoUser
          [{ UserID := 7, UnitID := 1, Role := "", IsPrimary := true }] [])
        = .error .invalidToken :=
  ⟨by decide,
   C1_roundtrip_rejected demoCfg demoState 0 "jti-1" demoUser
     [{ UserID := 7, UnitID := 1, Role := "", IsPrimary := true }] [] (by decide)⟩

/-! ## C2 — successful login and the lockout fields -/

/-- C2 counterexample: at time 10 the demo account's lock (locked_until
= 5) has expired and the correct password is supplied; Login succeeds,
but the stored locked_until is NOT cleared — it remains 5 — because
UpdateLastLogin (src/unnamed/part_003:95-103) only writes last_login and
login_attempts, and Login never calls UnlockAccount. This refutes the
claim that a successful check clears locked_until. -/
theorem C2_counterexample_lock_not_cleared :
    ((Login demoCfg c2State 10 "ja" "jr" demoReq).2.isOk = true)
    ∧ ((Login demoCfg c2State 10 "ja" "jr" demoReq).1.users.map User.LockedUntil
        = [some 5])
    ∧ ((Login demoCfg c2State 10 "ja" "jr" demoReq).1.users.map User.LoginAttempts
        = [0]) := by
  decide

/-- C2 amended: on every successful password check, Login resets the
account's login_attempts to 0 and records the last-login timestamp, but
leaves locked_until exactly as it was (lazy unlock: an expired lock's
timestamp stays stored and is simply ignored by the entry check). In
particular a login with correct credentials against an account whose
locked_until has passed succeeds and leaves attempts at 0. -/
theorem C2_success_resets_attempts_keeps_lock
    (cfg : AuthConfig) (st : AuthState) (now : Int) (jtiA jtiR : String)
    (req : LoginRequest) (user : User) (m : Membership) (org : Organization)
    (hfind : GetByEmailOrUsername st req.Username = some user)
    (huniq : ∀ u ∈ st.users, u.ID = user.ID → u = user)
    (hlock : ¬ lockIsActive user now)
    (hactive : user.IsActive = true)
    (hpw : bcryptCheck user.Password req.Password = true)
    (hm : (ListUserOrganizations st user.ID).find?
        (fun mm => mm.UnitID = req.OrganizationID) = some m)
    (hrole : m.Role = "" ∨ m.Role = systemAdminRole)
    (horg : GetOrganizationByID st m.UnitID = some org) :
    ∃ resp, (Login cfg st now jtiA jtiR req).2 = .ok resp
    ∧ GetByID (Login cfg st now jtiA jtiR req).1 user.ID
        = some { user with LoginAttempts := 0, LastLogin := some now }
    ∧ (GetByID (Login cfg st now jtiA jtiR req).1 user.ID).map User.LockedUntil
        = some user.LockedUntil := by
  have hmem : user ∈ st.users := List.mem_of_find?_eq_some hfind
  have hrole' : ¬ (m.Role ≠ "" ∧ m.Role ≠ systemAdminRole) := by tauto
  have hlogin : Login cfg st now jtiA jtiR req =
      (UpdateLastLogin st user.ID now,
       .ok { AccessToken := generateAccessToken cfg st now jtiA user
                (ListUserOrganizations st user.ID) (ListUserDepartments st user.ID)
             RefreshToken := generateRefreshToken cfg now jtiR user
             ExpiresIn := cfg.TokenExpiration, TokenType := "Bearer"
             User := composeUserInfo st user (ListUserOrganizations st user.ID)
                (ListUserDepartments st user.ID)
             LoggedOrganization := some org
             LoggedDepartment :=
               ((ListUserDepartments st user.ID).find?
                  (fun d => d.UnitID = req.DepartmentID)).bind
                 (fun d => GetDepartmentByID st d.UnitID) }) := by
    unfold Login collectMemberships
    rw [hfind]
    simp only [hlock, if_false, hactive, hpw, ite_false, ite_true, not_true,
      Bool.not_eq_true, if_neg, hm, hrole', horg]
  have hafter :
      GetByID (UpdateLastLogin st user.ID now) user.ID
        = some { user with LoginAttempts := 0, LastLogin := some now } := by
    unfold UpdateLastLogin
    rw [getByID_mapUser st user.ID
      (fun u => { u with LastLogin := some now, LoginAttempts := 0 })
      (fun _ => rfl)]
    rw [getByID_eq_of_mem st user hmem huniq]
    rfl
  refine ⟨_, by rw [hlogin], ?_, ?_⟩
  · rw [hlogin]
    exact hafter
  · rw [hlogin]
    show (GetByID (UpdateLastLogin st user.ID now) user.ID).map User.LockedUntil = _
    rw [hafter]
    rfl

/-- C2 witness: the expired-lock state of the counterexample satisfies
every hypothesis of the amended theorem. -/
theorem C2_success_resets_attempts_keeps_lock_witness :
    ∃ resp, (Login demoCfg c2State 10 "ja" "jr" demoReq).2 = .ok resp
    ∧ GetByID (Login demoCfg c2State 10 "ja" "jr" demoReq).1
        ({ demoUser with LockedUntil := some 5, LoginAttempts := 3 } : User).ID
        = some { ({ demoUser with LockedUntil := some 5, LoginAttempts := 3 } : User) with
                 LoginAttempts := 0, LastLogin := some 10 }
    ∧ (GetByID (Login demoCfg c2State 10 "ja" "jr" demoReq).1
        ({ demoUser with LockedUntil := some 5, LoginAttempts := 3 } : User).ID).map
          User.LockedUntil
        = some ({ demoUser with LockedUntil := some 5, LoginAttempts := 3 } : User).LockedUntil :=
  C2_success_resets_attempts_keeps_lock demoCfg c2State 10 "ja" "jr" demoReq
    { demoUser with LockedUntil := some 5, LoginAttempts := 3 }
    { UserID := 7, UnitID := 1, Role := "", IsPrimary := true } demoOrg
    (by decide) (by decide) (by decide) (by decide) (by decide) (by decide)
    (Or.inl rfl) (by decide)

/-! ## C5 — failed attempts and the lockout threshold -/

/-- C5: for every account that is active and not currently locked, a
failed password check returns ErrInvalidCredentials, increments the
stored attempt counter by one, and sets locked_until = now +
LockoutDuration exactly when the attempt count after this failure
reaches the threshold (user.LoginAttempts + 1 >= MaxLoginAttempts,
authentication_service.go:215-226); otherwise locked_until is untouched.
With MaxLoginAttempts = 5 this is the 5th consecutive failure, not the
6th (see the witness, which locks an account on LoginAttempts = 4). -/
theorem C5_failure_increments_and_locks_at_threshold
    (cfg : AuthConfig) (st : AuthState) (now : Int) (jtiA jtiR : String)
    (req : LoginRequest) (user : User)
    (hfind : GetByEmailOrUsername st req.Username = some user)
    (huniq : ∀ u ∈ st.users, u.ID = user.ID → u = user)
    (hlock : ¬ lockIsActive user now)
    (hactive : user.IsActive = true)
    (hpw : bcryptCheck user.Password req.Password = false) :
    (Login cfg st now jtiA jtiR req).2 = .error .invalidCredentials
    ∧ GetByID (Login cfg st now jtiA jtiR req).1 user.ID
        = some { user with
                 LoginAttempts := user.LoginAttempts + 1
                 LockedUntil :=
                   if user.LoginAttempts + 1 ≥ cfg.MaxLoginAttempts then
                     some (now + cfg.LockoutDuration)
                   else user.LockedUntil } := by
  have hmem : user ∈ st.users := List.mem_of_find?_eq_some hfind
  have hlogin : Login cfg st now jtiA jtiR req =
      ((if user.LoginAttempts + 1 ≥ cfg.MaxLoginAttempts then
          LockAccount (IncrementLoginAttempts st user.ID) user.ID
            (now + cfg.LockoutDuration)
        else IncrementLoginAttempts st user.ID),
       .error .invalidCredentials) := by
    unfold Login
    rw [hfind]
    simp only [hlock, hactive, hpw, if_false, ite_true, ite_false,
      Bool.false_eq_true, not_false_iff, if_pos, if_neg, not_true]
  constructor
  · rw [hlogin]
  · rw [hlogin]
    by_cases hth : user.LoginAttempts + 1 ≥ cfg.MaxLoginAttempts
    · rw [if_pos hth, if_pos hth]
      show GetByID (LockAccount (IncrementLoginAttempts st user.ID) user.ID _) user.ID = _
      unfold LockAccount IncrementLoginAttempts
      rw [getByID_mapUser _ user.ID
        (fun u => { u with LockedUntil := some (now + cfg.LockoutDuration) })
        (fun _ => rfl)]
      rw [getByID_mapUser st user.ID
        (fun u => { u with LoginAttempts := u.LoginAttempts + 1 })
        (fun _ => rfl)]
      rw [getByID_eq_of_mem st user hmem huniq]
      rfl
    · rw [if_neg hth, if_neg hth]
      show GetByID (IncrementLoginAttempts st user.ID) user.ID = _
      unfold IncrementLoginAttempts
      rw [getByID_mapUser st user.ID
        (fun u => { u with LoginAttempts := u.LoginAttempts + 1 })
        (fun _ => rfl)]
      rw [getByID_eq_of_mem st user hmem huniq]
      rfl

/-- C5 witness: with MaxLoginAttempts = 5, an account that already has 4
failed attempts is locked by its 5th failing attempt. -/
theorem C5_failure_increments_and_locks_at_threshold_witness :
    ((Login demoCfg { demoState with users := [{ demoUser with LoginAttempts := 4 }] }
        10 "ja" "jr" { demoReq with Password := "WRONG" }).2
      = .error .invalidCredentials)
    ∧ GetByID (Login demoCfg
        { demoState with users := [{ demoUser with LoginAttempts := 4 }] }
        10 "ja" "jr" { demoReq with Password := "WRONG" }).1
        ({ demoUser with LoginAttempts := 4 } : User).ID
        = some { ({ demoUser with LoginAttempts := 4 } : User) with
                 LoginAttempts := ({ demoUser with LoginAttempts := 4 } : User).LoginAttempts + 1
                 LockedUntil :=
                   if ({ demoUser with LoginAttempts := 4 } : User).LoginAttempts + 1
                       ≥ demoCfg.MaxLoginAttempts then
                     some (10 + demoCfg.LockoutDuration)
                   else ({ demoUser with LoginAttempts := 4 } : User).LockedUntil } :=
  C5_failure_increments_and_locks_at_threshold demoCfg
    { demoState with users := [{ demoUser with LoginAttempts := 4 }] }
    10 "ja" "jr" { demoReq with Password := "WRONG" }
    { demoUser with LoginAttempts := 4 }
    (by decide) (by decide) (by decide) (by decide) (by decide)

/-! ## C8 — the organization-scoped role check -/

/-- C8: for every login with correct credentials by a user holding a
membership in the requested organization, Login is rejected (with the
"user does not have the required role in the organization" error) when
that membership's role is neither empty nor SYSTEM_ADMIN, leaving the
store unchanged; and when the role is empty or SYSTEM_ADMIN the
organization-scoped check passes and Login succeeds (provided the
organization row exists, authentication_service.go:235-250). -/
theorem C8_role_check
    (cfg : AuthConfig) (st : AuthState) (now : Int) (jtiA jtiR : String)
    (req : LoginRequest) (user : User) (m : Membership)
    (hfind : GetByEmailOrUsername st req.Username = some user)
    (hlock : ¬ lockIsActive user now)
    (hactive : user.IsActive = true)
    (hpw : bcryptCheck user.Password req.Password = true)
    (hm : (ListUserOrganizations st user.ID).find?
        (fun mm => mm.UnitID = req.OrganizationID) = some m) :
    (m.Role ≠ "" ∧ m.Role ≠ systemAdminRole →
       Login cfg st now jtiA jtiR req = (st, .error .roleNotAllowed))
    ∧ ((m.Role = "" ∨ m.Role = systemAdminRole) →
       ∀ org, GetOrganizationByID st m.UnitID = some org →
       ∃ resp, (Login cfg st now jtiA jtiR req).2 = .ok resp) := by
  constructor
  · intro hbad
    unfold Login collectMemberships
    rw [hfind]
    simp only [hlock, hactive, hpw, if_false, ite_true, ite_false, hm,
      Bool.false_eq_true, not_false_iff, if_neg, if_pos, hbad]
    simp [hlock, hbad]
  · intro hok org horg
    have hrole' : ¬ (m.Role ≠ "" ∧ m.Role ≠ systemAdminRole) := by tauto
    unfold Login collectMemberships
    rw [hfind]
    simp only [hlock, hactive, hpw, if_false, ite_true, ite_false, hm,
      Bool.false_eq_true, not_false_iff, if_neg, hrole', horg]
    simp [hlock, hrole']

/-- C8 witness: a SYSTEM_ADMIN membership passes the check, and a
membership with role "CEO" is rejected with the role error. -/
theorem C8_role_check_witness :
    (Login demoCfg
        { demoState with userOrgs := [{ UserID := 7, UnitID := 1, Role := "CEO", IsPrimary := true }] }
        10 "ja" "jr" demoReq
      = ({ demoState with userOrgs := [{ UserID := 7, UnitID := 1, Role := "CEO", IsPrimary := true }] },
         .error .roleNotAllowed))
    ∧ ∃ resp, (Login demoCfg
        { demoState with userOrgs := [{ UserID := 7, UnitID := 1, Role := "SYSTEM_ADMIN", IsPrimary := true }] }
        10 "ja" "jr" demoReq).2 = .ok resp :=
  ⟨(C8_role_check demoCfg
      { demoState with userOrgs := [{ UserID := 7, UnitID := 1, Role := "CEO", IsPrimary := true }] }
      10 "ja" "jr" demoReq demoUser
      { UserID := 7, UnitID := 1, Role := "CEO", IsPrimary := true }
      (by decide) (by decide) (by decide) (by decide) (by decide)).1
      (by exact ⟨by decide, by decide⟩),
   (C8_role_check demoCfg
      { demoState with userOrgs := [{ UserID := 7, UnitID := 1, Role := "SYSTEM_ADMIN", IsPrimary := true }] }
      10 "ja" "jr" demoReq demoUser
      { UserID := 7, UnitID := 1, Role := "SYSTEM_ADMIN", IsPrimary := true }
      (by decide) (by decide) (by decide) (by decide) (by decide)).2
      (Or.inr rfl) demoOrg (by decide)⟩

/-! ## C10 — an unmatched department_id is not an error -/

/-- C10: for every Login with correct credentials and an acceptable
membership in the requested organization, a department_id that matches
none of the user's department memberships (including the zero value of
an omitted field, or a nonexistent department) is not an error: Login
still succeeds and the response's logged_department is absent (none)
(authentication_service.go:252-266, 285-293). -/
theorem C10_unmatched_department_ok
    (cfg : AuthConfig) (st : AuthState) (now : Int) (jtiA jtiR : String)
    (req : LoginRequest) (user : User) (m : Membership) (org : Organization)
    (hfind : GetByEmailOrUsername st req.Username = some user)
    (hlock : ¬ lockIsActive user now)
    (hactive : user.IsActive = true)
    (hpw : bcryptCheck user.Password req.Password = true)
    (hm : (ListUserOrganizations st user.ID).find?
        (fun mm => mm.UnitID = req.OrganizationID) = some m)
    (hrole : m.Role = "" ∨ m.Role = systemAdminRole)
    (horg : GetOrganizationByID st m.UnitID = some org)
    (hdept : (ListUserDepartments st user.ID).find?
        (fun d => d.UnitID = req.DepartmentID) = none) :
    ∃ resp, (Login cfg st now jtiA jtiR req).2 = .ok resp
      ∧ resp.LoggedDepartment = none := by
  have hrole' : ¬ (m.Role ≠ "" ∧ m.Role ≠ systemAdminRole) := by tauto
  unfold Login collectMemberships
  rw [hfind]
  simp only [hlock, hactive, hpw, if_false, ite_true, ite_false, hm,
    Bool.false_eq_true, not_false_iff, if_neg, hrole', horg, hdept]
  simp [hlock, hrole', hdept]

/-- C10 witness: the demo login asks for department_id 0, which matches
no membership; login succeeds with no logged_department. -/
theorem C10_unmatched_department_ok_witness :
    ∃ resp, (Login demoCfg demoState 10 "ja" "jr" demoReq).2 = .ok resp
      ∧ resp.LoggedDepartment = none :=
  C10_unmatched_department_ok demoCfg demoState 10 "ja" "jr" demoReq demoUser
    { UserID := 7, UnitID := 1, Role := "", IsPrimary := true } demoOrg
    (by decide) (by decide) (by decide) (by decide) (by decide)
    (Or.inl rfl) (by decide) (by decide)

/-! ## C3 — the at-most-one-primary invariant -/

/-- Pointwise-equal predicates count the same. -/
theorem countP_congr_mem {α : Type} (p q : α → Bool) (l : List α)
    (h : ∀ a ∈ l, p a = q a) : l.countP p = l.countP q := by
  induction l with
  | nil => rfl
  | cons a t ih =>
    rw [List.countP_cons, List.countP_cons, h a (List.mem_cons_self a t),
      ih (fun x hx => h x (List.mem_cons_of_mem a hx))]

/-- A pointwise implication bounds countP. -/
theorem countP_le_of_imp {α : Type} (p q : α → Bool) (l : List α)
    (h : ∀ a ∈ l, p a = true → q a = true) : l.countP p ≤ l.countP q := by
  induction l with
  | nil => simp
  | cons a t ih =>
    rw [List.countP_cons, List.countP_cons]
    have ht := ih (fun x hx => h x (List.mem_cons_of_mem a hx))
    by_cases hp : p a = true
    · rw [if_pos hp, if_pos (h a (List.mem_cons_self a t) hp)]
      omega
    · rw [if_neg hp]
      split <;> omega

/-- Clearing a user's primary flags leaves that user with zero primary
rows. -/
theorem primaryCount_clearPrimary_self (rows : List Membership) (uid : Nat) :
    primaryCount (clearPrimary rows uid) uid = 0 := by
  unfold primaryCount clearPrimary
  rw [List.countP_map, List.countP_eq_zero]
  intro m _
  by_cases h : m.UserID = uid <;> simp [h]

/-- Clearing one user's primary flags does not change another user's
primary count. -/
theorem primaryCount_clearPrimary_other (rows : List Membership)
    (uid uid' : Nat) (h : uid' ≠ uid) :
    primaryCount (clearPrimary rows uid) uid' = primaryCount rows uid' := by
  unfold primaryCount clearPrimary
  rw [List.countP_map]
  apply countP_congr_mem
  intro m _
  by_cases hm : m.UserID = uid
  · simp [hm, Function.comp, Ne.symm h]
  · simp [hm, Function.comp]

/-- Clearing primary flags does not change the composite keys. -/
theorem membershipKeys_clearPrimary (rows : List Membership) (uid : Nat) :
    membershipKeys (clearPrimary rows uid) = membershipKeys rows := by
  unfold membershipKeys clearPrimary
  rw [List.map_map]
  apply List.map_congr_left
  intro m _
  by_cases h : m.UserID = uid <;> simp [h]

/-- Under unique composite keys, at most one row matches a given
(user, unit) key. -/
theorem countP_keymatch_le_one :
    ∀ (rows : List Membership), KeysNodup rows → ∀ (uid unitId : Nat),
    rows.countP (fun m => decide (m.UserID = uid) && decide (m.UnitID = unitId)) ≤ 1 := by
  intro rows
  induction rows with
  | nil => intro _ uid unitId; simp
  | cons a t ih =>
    intro hk uid unitId
    unfold KeysNodup membershipKeys at hk
    rw [List.map_cons, List.nodup_cons] at hk
    obtain ⟨hnotin, hnodup⟩ := hk
    rw [List.countP_cons]
    by_cases ha : a.UserID = uid ∧ a.UnitID = unitId
    · have hz : t.countP
          (fun m => decide (m.UserID = uid) && decide (m.UnitID = unitId)) = 0 := by
        rw [List.countP_eq_zero]
        intro m hm
        simp only [Bool.and_eq_true, decide_eq_true_eq, not_and]
        intro h1 h2
        apply hnotin
        have : (m.UserID, m.UnitID) ∈ List.map (fun m => (m.UserID, m.UnitID)) t :=
          List.mem_map_of_mem _ hm
        rw [h1, h2, ← ha.1, ← ha.2] at this
        exact this
      simp [ha.1, ha.2, hz]
    · have hfalse : (decide (a.UserID = uid) && decide (a.UnitID = unitId)) = false := by
        rcases not_and_or.mp ha with h | h <;> simp [h]
      rw [hfalse, if_neg (by simp)]
      have ht : KeysNodup t := hnodup
      simpa using ih ht uid unitId

/-- The upsert preserves key uniqueness: the update branch rewrites rows
in place, the insert branch appends a key that was absent. -/
theorem keysNodup_upsert (rows : List Membership) (uid unitId : Nat)
    (role : String) (ip : Bool) (hk : KeysNodup rows) :
    KeysNodup (upsertMembership rows uid unitId role ip) := by
  unfold upsertMembership
  by_cases hany :
      rows.any (fun m => decide (m.UserID = uid) && decide (m.UnitID = unitId)) = true
  · rw [if_pos hany]
    unfold KeysNodup membershipKeys
    have : List.map (fun m => (m.UserID, m.UnitID))
        (rows.map (fun m =>
          if m.UserID = uid && m.UnitID = unitId then
            { m with Role := role, IsPrimary := ip }
          else m))
        = List.map (fun m => (m.UserID, m.UnitID)) rows := by
      rw [List.map_map]
      apply List.map_congr_left
      intro m _
      by_cases h : (decide (m.UserID = uid) && decide (m.UnitID = unitId)) = true
      · simp [Function.comp, h]
      · simp [Function.comp, h]
    rw [this]
    exact hk
  · rw [if_neg hany]
    have hany' := List.any_eq_false.mp (Bool.not_eq_true _ ▸ hany)
    unfold KeysNodup membershipKeys
    rw [List.map_append, List.nodup_append]
    refine ⟨hk, by simp, ?_⟩
    intro k hk1 hk2
    simp only [List.map_cons, List.map_nil, List.mem_singleton] at hk2
    obtain ⟨m, hm, hkey⟩ := List.mem_map.mp hk1
    apply hany' m hm
    have h1 : m.UserID = uid := by
      have := congrArg Prod.fst (hkey.trans hk2)
      simpa using this
    have h2 : m.UnitID = unitId := by
      have := congrArg Prod.snd (hkey.trans hk2)
      simpa using this
    simp [h1, h2]

/-- Upserting a membership of one user does not change another user's
primary count. -/
theorem primaryCount_upsert_other (rows : List Membership) (uid unitId : Nat)
    (role : String) (ip : Bool) (uid' : Nat) (h : uid' ≠ uid) :
    primaryCount (upsertMembership rows uid unitId role ip) uid'
      = primaryCount rows uid' := by
  unfold upsertMembership primaryCount
  by_cases hany :
      rows.any (fun m => decide (m.UserID = uid) && decide (m.UnitID = unitId)) = true
  · rw [if_pos hany, List.countP_map]
    apply countP_congr_mem
    intro m _
    by_cases hkm : (decide (m.UserID = uid) && decide (m.UnitID = unitId)) = true
    · have hmu : m.UserID = uid := by
        simp only [Bool.and_eq_true, decide_eq_true_eq] at hkm
        exact hkm.1
      simp only [Function.comp, hkm, if_pos]
      simp [hmu, Ne.symm h]
    · simp [Function.comp, hkm]
  · rw [if_neg hany, List.countP_append]
    simp [Ne.symm h]

/-- Upserting with is_primary = false never increases a primary count. -/
theorem primaryCount_upsert_false_le (rows : List Membership) (uid unitId : Nat)
    (role : String) (uid' : Nat) :
    primaryCount (upsertMembership rows uid unitId role false) uid'
      ≤ primaryCount rows uid' := by
  unfold upsertMembership primaryCount
  by_cases hany :
      rows.any (fun m => decide (m.UserID = uid) && decide (m.UnitID = unitId)) = true
  · rw [if_pos hany, List.countP_map]
    apply countP_le_of_imp
    intro m _
    by_cases hkm : (decide (m.UserID = uid) && decide (m.UnitID = unitId)) = true
    · simp [Function.comp, hkm]
    · simp [Function.comp, hkm]
  · rw [if_neg hany, List.countP_append]
    simp

/-- After a clear, upserting one primary row leaves at most one primary
row for that user (exactly the clear-then-set discipline). -/
theorem primaryCount_upsert_true_after_clear (rows : List Membership)
    (uid unitId : Nat) (role : String) (hk : KeysNodup rows) :
    primaryCount (upsertMembership (clearPrimary rows uid) uid unitId role true) uid ≤ 1 := by
  have hzero : primaryCount (clearPrimary rows uid) uid = 0 :=
    primaryCount_clearPrimary_self rows uid
  have hk' : KeysNodup (clearPrimary rows uid) := by
    unfold KeysNodup
    rw [membershipKeys_clearPrimary]
    exact hk
  have hnone : ∀ m ∈ clearPrimary rows uid,
      (decide (m.UserID = uid) && m.IsPrimary) = false := by
    intro m hm
    have := (List.countP_eq_zero.mp hzero) m hm
    simpa using this
  unfold upsertMembership
  by_cases hany : (clearPrimary rows uid).any
      (fun m => decide (m.UserID = uid) && decide (m.UnitID = unitId)) = true
  · rw [if_pos hany]
    unfold primaryCount
    rw [List.countP_map]
    have heq : (clearPrimary rows uid).countP
        ((fun m => decide (m.UserID = uid) && m.IsPrimary) ∘ fun m =>
          if m.UserID = uid && m.UnitID = unitId then
            { m with Role := role, IsPrimary := true }
          else m)
        = (clearPrimary rows uid).countP
            (fun m => decide (m.UserID = uid) && decide (m.UnitID = unitId)) := by
      apply countP_congr_mem
      intro m hm
      by_cases hkm : (decide (m.UserID = uid) && decide (m.UnitID = unitId)) = true
      · have hkm' := hkm
        simp only [Bool.and_eq_true, decide_eq_true_eq] at hkm'
        obtain ⟨hmu, hmt⟩ := hkm'
        simp [Function.comp, hmu, hmt]
      · have hkb : (decide (m.UserID = uid) && decide (m.UnitID = unitId)) = false := by
          simpa using hkm
        simp [Function.comp, hkb, hnone m hm]
    rw [heq]
    exact countP_keymatch_le_one _ hk' uid unitId
  · rw [if_neg hany]
    unfold primaryCount
    rw [List.countP_append]
    unfold primaryCount at hzero
    rw [hzero]
    simp

/-- The whole write sequence of one assignment call, at the rows level:
optional clear, then upsert. It preserves both halves of the invariant. -/
theorem assignRows_preserves (rows : List Membership) (uid unitId : Nat)
    (role : String) (ip : Bool)
    (hc : AtMostOnePrimary rows) (hk : KeysNodup rows) :
    AtMostOnePrimary
      (upsertMembership (if ip then clearPrimary rows uid else rows) uid unitId role ip)
    ∧ KeysNodup
      (upsertMembership (if ip then clearPrimary rows uid else rows) uid unitId role ip) := by
  cases ip with
  | false =>
    simp only [Bool.false_eq_true, if_false]
    constructor
    · intro uid'
      exact le_trans (primaryCount_upsert_false_le rows uid unitId role uid') (hc uid')
    · exact keysNodup_upsert rows uid unitId role false hk
  | true =>
    simp only [if_true]
    have hk' : KeysNodup (clearPrimary rows uid) := by
      unfold KeysNodup
      rw [membershipKeys_clearPrimary]
      exact hk
    constructor
    · intro uid'
      by_cases h : uid' = uid
      · subst h
        exact primaryCount_upsert_true_after_clear rows uid' unitId role hk
      · rw [primaryCount_upsert_other _ _ _ _ _ _ h,
          primaryCount_clearPrimary_other _ _ _ h]
        exact hc uid'
    · exact keysNodup_upsert _ uid unitId role true hk'

/-- C3 counterexample: a store satisfying the invariant (the admin's only
primary organization membership is in organization 2), on which one
BootstrapAdmin call — a membership-writing operation of the claim —
produces TWO primary organization memberships for user 1, because
BootstrapAdmin upserts its primary administrator membership
(authentication_service.go:182-187) without first clearing existing
primaries. This refutes the claimed invariant for sequences that include
BootstrapAdmin. -/
theorem C3_counterexample_bootstrap_breaks_invariant :
    MembershipInv c3State
    ∧ primaryCount (BootstrapAdmin demoCfg c3State c3Input).1.userOrgs 1 = 2 := by
  constructor
  · refine ⟨?_, ?_, ?_, ?_⟩
    · intro uid
      unfold primaryCount c3State
      by_cases h : (1 : Nat) = uid <;> simp [List.countP, List.countP.go, h]
    · intro uid
      unfold primaryCount c3State
      simp [List.countP, List.countP.go]
    · unfold KeysNodup membershipKeys c3State
      simp
    · unfold KeysNodup membershipKeys c3State
      simp
  · decide

/-- C3 amended: the invariant "at most one primary membership per user
per membership type" (together with composite-key uniqueness) IS
preserved by every AssignUserToOrganization and AssignUserToDepartment
call — they follow the clear-then-set discipline — and hence by any
sequence of those two operations; but it is NOT preserved by
BootstrapAdmin, which upserts a primary membership without clearing (see
the counterexample). -/
theorem C3_assign_preserves_invariant (st : AuthState)
    (inO : AssignUserOrganizationInput) (inD : AssignUserDepartmentInput)
    (h : MembershipInv st) :
    MembershipInv (AssignUserToOrganization st inO).1
    ∧ MembershipInv (AssignUserToDepartment st inD).1 := by
  obtain ⟨hO, hD, hkO, hkD⟩ := h
  constructor
  · unfold AssignUserToOrganization
    by_cases h1 : inO.UserID = 0
    · simp only [h1, if_pos rfl]
      exact ⟨hO, hD, hkO, hkD⟩
    · rw [if_neg h1]
      by_cases h2 : inO.OrganizationID = 0
      · rw [if_pos h2]
        exact ⟨hO, hD, hkO, hkD⟩
      · rw [if_neg h2]
        cases hu : GetByID st inO.UserID with
        | none => exact ⟨hO, hD, hkO, hkD⟩
        | some u =>
          cases ho : GetOrganizationByID st inO.OrganizationID with
          | none => exact ⟨hO, hD, hkO, hkD⟩
          | some o =>
            have hrows := assignRows_preserves st.userOrgs inO.UserID
              inO.OrganizationID inO.Role inO.IsPrimary hO hkO
            cases hp : inO.IsPrimary with
            | false =>
              simp only [hp, Bool.false_eq_true, if_false] at hrows ⊢
              exact ⟨hrows.1, hD, hrows.2, hkD⟩
            | true =>
              simp only [hp, if_true] at hrows ⊢
              refine ⟨?_, hD, ?_, hkD⟩
              · exact hrows.1
              · exact hrows.2
  · obtain ⟨ui, di, rl, ip⟩ := inD
    unfold AssignUserToDepartment
    cases ui with
    | none => exact ⟨hO, hD, hkO, hkD⟩
    | some uid =>
      cases di with
      | none => exact ⟨hO, hD, hkO, hkD⟩
      | some deptId =>
        show MembershipInv (match GetByID st uid with
          | none => (st, Except.error AuthErr.userNotFound)
          | some _ =>
            match GetDepartmentByID st deptId with
            | none => (st, Except.error AuthErr.departmentNotFound)
            | some _ =>
              let st1 := if ip then ClearPrimaryDepartment st uid else st
              let st2 := UpsertUserDepartment st1 uid deptId rl ip
              let st3 := if ip then SetUserPrimaryDepartment st2 uid deptId else st2
              (st3, Except.ok (GetUserDepartment st3 uid deptId))).1
        cases hu : GetByID st uid with
        | none => exact ⟨hO, hD, hkO, hkD⟩
        | some u =>
          cases hd : GetDepartmentByID st deptId with
          | none => exact ⟨hO, hD, hkO, hkD⟩
          | some d =>
            have hrows := assignRows_preserves st.userDepts uid deptId rl ip hD hkD
            cases ip with
            | false =>
              simp only [Bool.false_eq_true, if_false] at hrows ⊢
              exact ⟨hO, hrows.1, hkO, hrows.2⟩
            | true =>
              simp only [if_true] at hrows ⊢
              exact ⟨hO, hrows.1, hkO, hrows.2⟩

/-- C3 witness: the amended preservation theorem applied to the demo
store (which satisfies the invariant) with one concrete assignment of
each kind. -/
theorem C3_assign_preserves_invariant_witness :
    MembershipInv (AssignUserToOrganization demoState
      { UserID := 7, OrganizationID := 1, Role := "", IsPrimary := true }).1
    ∧ MembershipInv (AssignUserToDepartment demoState
      { UserID := some 7, DepartmentID := some 3, Role := "", IsPrimary := true }).1 :=
  C3_assign_preserves_invariant demoState
    { UserID := 7, OrganizationID := 1, Role := "", IsPrimary := true }
    { UserID := some 7, DepartmentID := some 3, Role := "", IsPrimary := true }
    ⟨by
      intro uid
      unfold primaryCount demoState
      by_cases h : (7 : Nat) = uid <;> simp [List.countP, List.countP.go, h],
     by
      intro uid
      unfold primaryCount demoState
      simp [List.countP, List.countP.go],
     by
      unfold KeysNodup membershipKeys demoState
      simp,
     by
      unfold KeysNodup membershipKeys demoState
      simp⟩

/-! ## C9 — BootstrapAdmin idempotence -/

/-- C9: bootstrapping a fresh store twice with the same (valid) input is
idempotent: the first call creates exactly one organization, one admin
account and one administrator membership row; the second call succeeds,
creates no second organization (EnsureOrganization finds the existing row
by domain or name), no second account (GetByEmail finds the admin), no
second membership row (the upsert hits the existing composite key), and
does not rehash the password: with ForcePasswordReset = false the
supplied password verifies against the stored hash, so the stored
password column is unchanged. -/
theorem C9_bootstrap_idempotent (cfg : AuthConfig) (input : BootstrapAdminInput)
    (hmail : trimSpace input.AdminEmail ≠ "")
    (hname : trimSpace input.OrganizationName ≠ "")
    (hpwlen : ¬ ((input.AdminPassword.length : Int) <
        (if cfg.PasswordMinLength ≤ 0 then 8 else cfg.PasswordMinLength)))
    (hforce : input.ForcePasswordReset = false) :
    ((BootstrapAdmin cfg emptyState input).2.isOk = true)
    ∧ (BootstrapAdmin cfg emptyState input).1.orgs.length = 1
    ∧ (BootstrapAdmin cfg emptyState input).1.users.length = 1
    ∧ (BootstrapAdmin cfg emptyState input).1.userOrgs.length = 1
    ∧ ((BootstrapAdmin cfg (BootstrapAdmin cfg emptyState input).1 input).2.isOk = true)
    ∧ (BootstrapAdmin cfg (BootstrapAdmin cfg emptyState input).1 input).1.orgs.length = 1
    ∧ (BootstrapAdmin cfg (BootstrapAdmin cfg emptyState input).1 input).1.users.length = 1
    ∧ (BootstrapAdmin cfg (BootstrapAdmin cfg emptyState input).1 input).1.userOrgs.length = 1
    ∧ (BootstrapAdmin cfg (BootstrapAdmin cfg emptyState input).1 input).1.users.map User.Password
        = (BootstrapAdmin cfg emptyState input).1.users.map User.Password := by
  by_cases hd : trimSpace input.OrganizationDomain = "" <;>
    refine ⟨?_, ?_, ?_, ?_, ?_, ?_, ?_, ?_, ?_⟩ <;>
      simp [BootstrapAdmin, EnsureOrganization, updateOrganizationDefaults, emptyState,
        GetByEmail, CreateUser, UpdateUser, bootstrapFinish, UpsertUserOrganization,
        upsertMembership, SetUserPrimaryOrganization, mapUser, bcryptCheck, bcryptHash,
        Except.isOk, Except.toBool, hname, hmail, hpwlen, hforce, hd, List.find?]

/-- C9 witness: bootstrapping twice with the concrete root-admin input
on a fresh store. -/
theorem C9_bootstrap_idempotent_witness :
    ((BootstrapAdmin demoCfg emptyState c3Input).2.isOk = true)
    ∧ (BootstrapAdmin demoCfg emptyState c3Input).1.orgs.length = 1
    ∧ (BootstrapAdmin demoCfg emptyState c3Input).1.users.length = 1
    ∧ (BootstrapAdmin demoCfg emptyState c3Input).1.userOrgs.length = 1
    ∧ ((BootstrapAdmin demoCfg (BootstrapAdmin demoCfg emptyState c3Input).1 c3Input).2.isOk = true)
    ∧ (BootstrapAdmin demoCfg (BootstrapAdmin demoCfg emptyState c3Input).1 c3Input).1.orgs.length = 1
    ∧ (BootstrapAdmin demoCfg (BootstrapAdmin demoCfg emptyState c3Input).1 c3Input).1.users.length = 1
    ∧ (BootstrapAdmin demoCfg (BootstrapAdmin demoCfg emptyState c3Input).1 c3Input).1.userOrgs.length = 1
    ∧ (BootstrapAdmin demoCfg (BootstrapAdmin demoCfg emptyState c3Input).1 c3Input).1.users.map User.Password
        = (BootstrapAdmin demoCfg emptyState c3Input).1.users.map User.Password :=
  C9_bootstrap_idempotent demoCfg c3Input (by decide) (by decide) (by decide) rfl

end Auth
